import Mathlib

/-!
Verification of the Asterisk AI Voice Agent media core against its
natural-language specification.

The definitions below are shallow embeddings of the Python sources:
* `src/rtp_server.py` — RTP transport (`RTPServer.send_audio`,
  `RTPServer._rtp_receiver_loop`)
* `src/core/streaming_playback_manager.py` — streaming playback manager
  (warm-up computation, buffered-bytes accounting, grace waits,
  egress endianness handling)
* `src/providers/deepgram.py` — greeting injection counter
* `src/tools/telephony/hangup.py` — hangup guardrail
* `src/tools/telephony/voicemail.py` — voicemail transfer rollback

Machine integers are modelled as `Nat`/`Int` with explicit `% 2^w`
where the Python code masks; byte strings are `List Nat`; fallible
external calls (`audioop.*`) return `Option`.
-/

namespace VoiceAgent

/-! ## RTP transport (`src/rtp_server.py`) -/

/-- Mutable per-call RTP session state (`RTPSession` dataclass,
`rtp_server.py` lines 20-44).  Only the fields that the embedded
operations read or write are carried. -/
structure RTPSession where
  remoteHost : Option String
  remotePort : Option Nat
  sequenceNumber : Nat
  timestamp : Nat
  ssrc : Option Nat
  outboundSsrc : Option Nat
  expectedSequence : Nat
  lastSequence : Nat
  framesReceived : Nat
  sendSequenceInitialized : Bool
  sendTimestampInitialized : Bool
  echoPacketsFiltered : Nat
  deriving Repr, DecidableEq

/-- A fresh session as built by `allocate_session` (dataclass defaults). -/
def RTPSession.fresh : RTPSession :=
  { remoteHost := none
    remotePort := none
    sequenceNumber := 0
    timestamp := 0
    ssrc := none
    outboundSsrc := none
    expectedSequence := 0
    lastSequence := 0
    framesReceived := 0
    sendSequenceInitialized := false
    sendTimestampInitialized := false
    echoPacketsFiltered := 0 }

/-- Server-level configuration relevant to the receive loop
(`RTPServer.__init__`). -/
structure RTPServerCfg where
  lockRemoteEndpoint : Bool
  allowedRemoteHosts : Option (List String)
  deriving Repr

/-- Embedding of `RTPServer.send_audio` (`rtp_server.py` lines 211-244) translated
as found in the source.  `rnd` stands for `random.randint(0, 0xFFFFFFFF)`.
The function returns the Boolean result together with the updated
session map entry.  Note: in the source, line 244 `return False` is at
the same indentation as the `if out_ssrc is None:` check above it, so it
executes unconditionally; the sequence/header/socket-send code (lines
253-293) is unreachable, stranded after the `return` of the interleaved
`has_remote_endpoint` definition. -/
def sendAudio (rnd : Nat) (session : Option RTPSession) (chunk : List Nat) :
    Bool × Option RTPSession :=
  if chunk = [] then
    (true, session)
  else
    match session with
    | none => (false, none)
    | some s =>
      if s.remoteHost = none ∨ s.remotePort = none then
        (false, some s)
      else
        -- establish outbound SSRC for echo filtering (lines 225-239)
        let s :=
          if s.outboundSsrc = none then
            match s.ssrc with
            | some inSsrc =>
                { s with outboundSsrc := some ((inSsrc ^^^ 0xFFFFFFFF) % 2 ^ 32) }
            | none => { s with outboundSsrc := some (rnd % 2 ^ 32) }
          else s
        -- line 244: `return False` executes unconditionally
        (false, some s)

/-- Embedding of `RTPServer.has_remote_endpoint` (lines 246-251; the code after its
`return` statement is unreachable). -/
def hasRemoteEndpoint (session : Option RTPSession) : Bool :=
  match session with
  | none => false
  | some s => s.remoteHost.isSome && s.remotePort.isSome

/-- Big-endian read of `n` bytes starting at index `i` of a datagram. -/
def beBytes (data : List Nat) (i n : Nat) : Nat :=
  (List.range n).foldl (fun acc k => acc * 256 + data.getD (i + k) 0) 0

/-- Outcome of processing one inbound datagram in
`RTPServer._rtp_receiver_loop` (lines 303-399).  `deliver` means the
packet was handed to `_handle_inbound_packet`, i.e. the engine/provider
delivery path. -/
inductive RxAction where
  | dropShort
  | dropBadVersion
  | dropEcho
  | dropNotAllowed
  | dropLockedMismatch
  | deliver (sequence timestamp : Nat) (payload : List Nat) (ssrc : Nat)
  deriving Repr, DecidableEq

/-- One iteration of `_rtp_receiver_loop` on a received datagram
(`rtp_server.py` lines 313-399), ending at the hand-off to
`_handle_inbound_packet`.  Returns the action taken, the updated
session, and the SSRC→call-id mapping write if one occurred. -/
def rtpReceivePacket (cfg : RTPServerCfg) (s : RTPSession)
    (data : List Nat) (addrHost : String) (addrPort : Nat) :
    RxAction × RTPSession × Option Nat :=
  if data.length < 12 then
    (.dropShort, s, none)
  else
    let version := data.getD 0 0 / 64
    if version ≠ 2 then
      (.dropBadVersion, s, none)
    else
      let sequence := beBytes data 2 2
      let timestamp := beBytes data 4 4
      let ssrc := beBytes data 8 4
      let payload := data.drop 12
      -- echo filter (lines 326-337)
      if s.outboundSsrc.isSome ∧ ssrc = s.outboundSsrc.iget then
        (.dropEcho, { s with echoPacketsFiltered := s.echoPacketsFiltered + 1 }, none)
      else
        -- remote endpoint record / lock (lines 339-381)
        let allowed := match cfg.allowedRemoteHosts with
          | none => true
          | some hosts => hosts.contains addrHost
        match s.remoteHost, s.remotePort with
        | none, _ | _, none =>
          if allowed = false then
            (.dropNotAllowed, s, none)
          else
            let s := { s with remoteHost := some addrHost, remotePort := some addrPort }
            rtpAcceptPacket s sequence timestamp payload ssrc
        | some rh, some rp =>
          if rh ≠ addrHost ∨ rp ≠ addrPort then
            if allowed = false then
              (.dropNotAllowed, s, none)
            else if cfg.lockRemoteEndpoint then
              (.dropLockedMismatch, s, none)
            else
              let s := { s with remoteHost := some addrHost, remotePort := some addrPort }
              rtpAcceptPacket s sequence timestamp payload ssrc
          else
            rtpAcceptPacket s sequence timestamp payload ssrc
where
  /-- SSRC mapping, outbound seeding, and hand-off (lines 383-399). -/
  rtpAcceptPacket (s : RTPSession) (sequence timestamp : Nat)
      (payload : List Nat) (ssrc : Nat) : RxAction × RTPSession × Option Nat :=
    let (s, mapped) :=
      if s.ssrc = none then
        ({ s with ssrc := some ssrc }, some ssrc)
      else (s, none)
    let s := if ¬ s.sendSequenceInitialized then { s with sequenceNumber := sequence } else s
    let s := if ¬ s.sendTimestampInitialized then { s with timestamp := timestamp } else s
    (.deliver sequence timestamp payload ssrc, s, mapped)

/-! ## Streaming playback manager (`src/core/streaming_playback_manager.py`) -/

/-- Python `math.ceil(a / b)` for non-negative integers with `b ≥ 1`. -/
def ceilDiv (a b : Nat) : Nat := (a + b - 1) / b

/-- Streaming configuration after `StreamingPlaybackManager.__init__`
(lines 186-207): all values are non-negative integers. -/
structure StreamingCfg where
  sampleRate : Nat
  jitterBufferMs : Nat
  chunkSizeMs : Nat
  minStartMs : Nat
  lowWatermarkMs : Nat
  providerGraceMs : Nat
  greetingMinStartMs : Nat
  egressSwapMode : String
  deriving Repr

namespace StreamingCfg

/-- Derived `self.min_start_chunks` (constructor line 197). -/
def minStartChunks (c : StreamingCfg) : Nat :=
  max 1 (ceilDiv c.minStartMs (max 1 c.chunkSizeMs))

/-- Derived `self.low_watermark_chunks` (constructor line 198). -/
def lowWatermarkChunks (c : StreamingCfg) : Nat :=
  ceilDiv c.lowWatermarkMs (max 1 c.chunkSizeMs)

/-- Derived `self.greeting_min_start_chunks` (constructor lines 204-207). -/
def greetingMinStartChunks (c : StreamingCfg) : Nat :=
  if c.greetingMinStartMs > 0 then
    max 1 (ceilDiv c.greetingMinStartMs (max 1 c.chunkSizeMs))
  else c.minStartChunks

/-- Python `int(self.provider_grace_ms or 500)`: a zero grace falls back
to 500 (used at lines 345, 352 and 404). -/
def pgOr500 (c : StreamingCfg) : Nat :=
  if c.providerGraceMs = 0 then 500 else c.providerGraceMs

end StreamingCfg

/-- Per-stream warm-up parameters derived in `start_streaming_playback`
(lines 321-406 plus the egress-swap decision at lines 500-514). -/
structure WarmupParams where
  jbChunks : Nat
  adaptiveMinMs : Nat
  resumeFloorChunks : Nat
  minStartChunks : Nat
  lowWatermarkChunks : Nat
  initialStartupReady : Bool
  egressSwap : Bool
  deriving Repr, DecidableEq

/-- The warm-up / clamping computation of `start_streaming_playback`
(`streaming_playback_manager.py` lines 321-406, 500-514).  `gapMs` is
`gap_ms` (the caller passes 999999 when no previous segment ended);
`greeting` is `playback_type == "greeting"`; `vadSwap` is
`session.vad_state.get("pcm16_inbound_swap", False)` and
`audiosocketPcm16` whether the canonical AudioSocket format is PCM16. -/
def computeWarmup (c : StreamingCfg) (gapMs : Nat) (greeting : Bool)
    (vadSwap : Bool) (audiosocketPcm16 : Bool) : WarmupParams :=
  let chunkMs := max 1 c.chunkSizeMs
  let jbChunks := max 1 (ceilDiv c.jitterBufferMs chunkMs)
  let baseMinMs := max 1 c.minStartMs
  let adaptiveMinMs :=
    if greeting then baseMinMs
    else if gapMs ≤ c.pgOr500 then max 80 (baseMinMs / 2)
    else max baseMinMs 400
  let adaptiveMinChunks := max 1 (ceilDiv adaptiveMinMs chunkMs)
  let resumeFloorMs :=
    if greeting then baseMinMs
    else if gapMs ≤ c.pgOr500 then max 160 (min 200 adaptiveMinMs)
    else adaptiveMinMs
  let resumeFloorChunks := max 1 (ceilDiv resumeFloorMs chunkMs)
  let configuredMinStart :=
    if greeting then c.greetingMinStartChunks else adaptiveMinChunks
  let maxStartable := max 1 (jbChunks - 1)
  let minStartChunks := max 1 (min configuredMinStart maxStartable)
  -- low watermark (lines 379-401): configured value is a floor under
  -- the ~2/3-of-min-start scaling, then capped
  let scaledLw := ceilDiv (2 * minStartChunks) 3
  let configuredLw := max c.lowWatermarkChunks scaledLw
  let lowWatermarkChunks :=
    if configuredLw = 0 then 0
    else
      let maxLow := minStartChunks - 1
      let halfCapacity := jbChunks / 2
      min configuredLw (min maxLow halfCapacity)
  let initialStartupReady := decide (gapMs ≤ c.pgOr500)
  -- egress swap decision (lines 500-514)
  let egressSwapAuto := audiosocketPcm16 && vadSwap
  let egressSwap :=
    if c.egressSwapMode = "force_true" then true
    else if c.egressSwapMode = "force_false" then false
    else egressSwapAuto
  { jbChunks := jbChunks
    adaptiveMinMs := adaptiveMinMs
    resumeFloorChunks := resumeFloorChunks
    minStartChunks := minStartChunks
    lowWatermarkChunks := lowWatermarkChunks
    initialStartupReady := initialStartupReady
    egressSwap := egressSwap }

/-- Return-value skeleton of `start_streaming_playback` (lines 304-316,
436-447, 594): reuse the active stream's id, fail when the call session
is missing, fail on gating contention, otherwise return the new id. -/
def startStreamingResult (streamActive : Bool) (existingId : String)
    (sessionFound : Bool) (gatingSuccess : Bool) (newId : String) :
    Option String :=
  if streamActive then some existingId
  else if ¬ sessionFound then none
  else if ¬ gatingSuccess then none
  else some newId

/-- Milliseconds the `_cleanup_stream` tail path waits before flushing
(lines 2178-2182: `if self.provider_grace_ms: await
asyncio.sleep(self.provider_grace_ms / 1000.0)` — no cap). -/
def cleanupGraceWaitMs (providerGraceMs : Nat) : Nat :=
  if providerGraceMs ≠ 0 then providerGraceMs else 0

/-- Milliseconds cap of the pacer's low-watermark rebuild wait
(`_process_jitter_buffer` line 797: `max_wait = min(0.06, cfg_wait)`
with `cfg_wait = provider_grace_ms / 1000`). -/
def rebuildMaxWaitMs (providerGraceMs : Nat) : Nat :=
  min 60 providerGraceMs

/-! ### Buffered-bytes accounting (`_stream_audio_loop` lines 654-663,
`_process_jitter_buffer` lines 827-904, `_decrement_buffered_bytes`
lines 1798-1808).

The jitter queue is modelled by the byte lengths of its queued chunks,
the AudioSocket frame remainder by its byte length, and the
`buffered_bytes` counter as the (clamped) integer the code maintains. -/

/-- Abstract state of one stream's buffer accounting. -/
structure BufState where
  queue : List Nat
  remainder : Nat
  buffered : Int
  deriving Repr, DecidableEq

/-- Embedding of `_decrement_buffered_bytes`: clamps at zero (lines 1805-1806),
and is a no-op for a non-positive count (lines 1799-1800). -/
def decBuffered (v : Int) (k : Nat) : Int :=
  if k = 0 then v else max 0 (v - k)

/-- Apply `k` successive frame decrements of `f` bytes each, as performed by
the AudioSocket send loop (line 858 runs once per emitted frame). -/
def decBufferedTimes (v : Int) (f : Nat) : Nat → Int
  | 0 => v
  | k + 1 => decBufferedTimes (decBuffered v f) f k

/-- Operations touching the buffer accounting.  `enqueue n` is the
producer queuing an `n`-byte chunk (lines 654-663); `consumeRTP` is the
pacer draining one chunk on the RTP path where `_process_audio_chunk`
passes the chunk through unchanged (lines 892-904); `consumeAS
procLen` is the pacer draining one chunk on the AudioSocket path where
conversion yields `procLen` bytes that are framed together with the
remainder (lines 835-869). -/
inductive BufOp where
  | enqueue (n : Nat)
  | consumeRTP
  | consumeAS (procLen : Nat)
  deriving Repr, DecidableEq

/-- One buffer-accounting step; `f` is the stream's frame size in bytes
(`_frame_size_bytes`, always ≥ 1). -/
def bufStep (f : Nat) (s : BufState) : BufOp → BufState
  | .enqueue n => { s with queue := s.queue ++ [n], buffered := s.buffered + n }
  | .consumeRTP =>
    match s.queue with
    | [] => s
    | n :: rest =>
      -- RTP path: `processed_chunk == chunk`, whole chunk consumed
      { s with queue := rest, buffered := decBuffered s.buffered n }
  | .consumeAS procLen =>
    match s.queue with
    | [] => s
    | _ :: rest =>
      let pending := s.remainder + procLen
      let frames := pending / f
      { queue := rest
        remainder := pending % f
        buffered := decBufferedTimes s.buffered f frames }

/-- Run a sequence of buffer operations from a state. -/
def bufRun (f : Nat) (s : BufState) : List BufOp → BufState
  | [] => s
  | op :: ops => bufRun f (bufStep f s op) ops

/-- The spec's invariant (I2): `buffered_bytes` equals the bytes in the
jitter queue plus the frame remainder. -/
def bufInv (s : BufState) : Prop :=
  s.buffered = (s.queue.sum : Int) + s.remainder

instance : DecidablePred bufInv := fun s => by
  unfold bufInv; infer_instance

/-- An operation is length-preserving at a state when an AudioSocket
consume produces exactly as many bytes as the chunk it drained
(true whenever `_process_audio_chunk` does not change the chunk's
length, e.g. matching source and target format and rate). -/
def lengthPreserving (s : BufState) : BufOp → Prop
  | .enqueue _ => True
  | .consumeRTP => True
  | .consumeAS procLen =>
    match s.queue with
    | [] => True
    | n :: _ => procLen = n

instance (s : BufState) : DecidablePred (lengthPreserving s) := fun op => by
  cases op with
  | enqueue n => exact .isTrue trivial
  | consumeRTP => exact .isTrue trivial
  | consumeAS procLen =>
    unfold lengthPreserving
    cases s.queue with
    | nil => exact .isTrue trivial
    | cons n _ => exact (inferInstance : Decidable (procLen = n))

/-! ### PCM16 egress endianness (`_apply_pcm_endianness`, lines 1632-1738) -/

/-- Interpret a 16-bit unsigned value as signed (two's complement). -/
def toSigned16 (v : Nat) : Int :=
  if v < 32768 then (v : Int) else (v : Int) - 65536

/-- Little-endian 16-bit samples of a byte string (pairs of bytes). -/
def pcm16Samples : List Nat → List Int
  | lo :: hi :: rest => toSigned16 ((lo + 256 * hi) % 65536) :: pcm16Samples rest
  | _ => []

/-- Model of `audioop.rms(b, 2)`: root-mean-square of the 16-bit samples, `none`
when the byte count is odd (audioop raises; callers catch and use 0).
The C float square root is modelled with `Nat.sqrt`. -/
def audioopRms (b : List Nat) : Option Nat :=
  if b.length % 2 ≠ 0 then none
  else
    let ss := pcm16Samples b
    if ss.length = 0 then some 0
    else some (Nat.sqrt (((ss.map (fun s => s * s)).sum.toNat) / ss.length))

/-- Model of `audioop.byteswap(b, 2)`: swap each byte pair, `none` on odd length. -/
def audioopByteswap : List Nat → Option (List Nat)
  | [] => some []
  | lo :: hi :: rest => (audioopByteswap rest).map (fun r => hi :: lo :: r)
  | [_] => none

/-- The per-stream fields of `stream_info` that
`_apply_pcm_endianness` reads or writes, plus the
`ai_agent_stream_endian_corrections_total` metric. -/
structure EgressState where
  targetFormat : String
  egressSwap : Bool
  egressSwapAuto : Bool
  probeDone : Bool
  skipLogged : Bool
  corrections : Nat
  deriving Repr, DecidableEq

/-- Embedding of `StreamingPlaybackManager._apply_pcm_endianness`
(`streaming_playback_manager.py` lines 1632-1738), returning the bytes
to emit and the updated stream state.  `mode` is already lowercase as
produced by the constructor / `_process_audio_chunk`. -/
def applyPcmEndianness (st : EgressState) (pcm : List Nat) (mode : String) :
    List Nat × EgressState :=
  if pcm = [] then (pcm, st)
  else if ¬ (st.targetFormat = "slin16" ∨ st.targetFormat = "linear16" ∨
              st.targetFormat = "pcm16") then
    (pcm, { st with skipLogged := true })
  else
    let mode := if mode = "" then "auto" else mode
    let probeNeeded := ¬ st.probeDone
    if probeNeeded ∨ mode = "force_true" then
      let rmsNative := (audioopRms pcm).getD 0
      let swappedBytes := audioopByteswap pcm
      let rmsSwapped := match swappedBytes with
        | some sb => (audioopRms sb).getD 0
        | none => 0
      -- probe block (lines 1682-1724)
      let (st, earlyOut) :=
        if probeNeeded then
          let st := { st with probeDone := true }
          if mode ≠ "force_false" ∧ swappedBytes.isSome then
            let threshold := max 512 (4 * max 1 rmsNative)
            if ¬ st.egressSwap ∧ rmsSwapped ≥ threshold then
              ({ st with egressSwap := true, egressSwapAuto := true,
                         corrections := st.corrections + 1 },
               swappedBytes)
            else (st, none)
          else (st, none)
        else (st, none)
      match earlyOut with
      | some sb => (sb, st)
      | none =>
        -- force_true promotion (lines 1726-1730)
        if mode = "force_true" ∧ ¬ st.egressSwap then
          let st := { st with egressSwap := true }
          match swappedBytes with
          | some sb => (sb, st)
          | none => finishSwap st pcm
        else finishSwap st pcm
    else finishSwap st pcm
where
  /-- The trailing `if egress_swap: byteswap` (lines 1732-1738); a
  byteswap failure falls back to the native bytes. -/
  finishSwap (st : EgressState) (pcm : List Nat) : List Nat × EgressState :=
    if st.egressSwap then ((audioopByteswap pcm).getD pcm, st) else (pcm, st)

/-- Process a sequence of chunks through `_apply_pcm_endianness`,
threading the stream state, and collect the emitted bytes. -/
def applyPcmEndiannessRun (st : EgressState) (mode : String) :
    List (List Nat) → List (List Nat) × EgressState
  | [] => ([], st)
  | c :: cs =>
    let (out, st') := applyPcmEndianness st c mode
    let (outs, stFin) := applyPcmEndiannessRun st' mode cs
    (out :: outs, stFin)

/-! ## Deepgram greeting injection (`src/providers/deepgram.py`) -/

/-- The three greeting-injection sites of a Deepgram provider session:
`_inject_greeting_immediate` (lines 277-288, guard
`_greeting_injections < 1`), `_inject_greeting_if_quiet` (lines
300-312, guard `< 2`), and the post-ACK injection in `_receive_loop`
(lines 649-659, guard `< 2`). -/
inductive GreetSite where
  | immediate
  | quietFallback
  | postAck
  deriving Repr, DecidableEq

/-- One attempted injection: `condsOk` bundles the site's other guards
(websocket open and not closed, greeting text non-empty, no audio burst
observed).  Each site increments `_greeting_injections` only when its
counter guard also holds; guard check and increment run without an
intervening await, so they are atomic on the asyncio loop. -/
def greetStep (n : Nat) : GreetSite × Bool → Nat
  | (.immediate, condsOk) => if condsOk ∧ n < 1 then n + 1 else n
  | (.quietFallback, condsOk) => if condsOk ∧ n < 2 then n + 1 else n
  | (.postAck, condsOk) => if condsOk ∧ n < 2 then n + 1 else n

/-- Value of `_greeting_injections` after a session executes a sequence of
attempted injections, starting from the `__init__` value 0 (line 109). -/
def greetRun (attempts : List (GreetSite × Bool)) : Nat :=
  attempts.foldl greetStep 0

/-! ## Voicemail tool (`src/tools/telephony/voicemail.py`) -/

/-- Session fields that `VoicemailTool.execute` mutates. -/
structure VmSession where
  transferActive : Bool
  transferTarget : Option String
  deriving Repr, DecidableEq

/-- Result of `VoicemailTool.execute`: the returned status/message and
the session state after the tool ran. -/
structure VmResult where
  status : String
  message : String
  session : VmSession
  deriving Repr, DecidableEq

/-- Embedding of `VoicemailTool.execute` (`voicemail.py` lines 59-164).
`enabled`/`extension` come from `tools.leave_voicemail` config;
`ariContinueFails` is whether the ARI `channels/{id}/continue` command
raises.  The ~800 ms grace sleep (line 108) has no state effect. -/
def voicemailExecute (session : VmSession) (enabled : Bool)
    (extension : Option String) (ariContinueFails : Bool) : VmResult :=
  if ¬ enabled then
    { status := "failed", message := "Voicemail is not available", session := session }
  else
    match extension with
    | none =>
      { status := "failed", message := "Voicemail is not configured properly"
        session := session }
    | some ext =>
      if ext = "" then
        -- `if not extension` also rejects an empty string (line 84)
        { status := "failed", message := "Voicemail is not configured properly"
          session := session }
      else
      -- set transfer_active before the grace sleep and continue (lines 99-102)
      let session := { session with
        transferActive := true
        transferTarget := some ("Voicemail " ++ ext) }
      if ariContinueFails then
        -- rollback on failure (lines 156-159)
        { status := "failed"
          message := "Unable to transfer to voicemail at this time"
          session := { session with transferActive := false, transferTarget := none } }
      else
        { status := "success"
          message := "Are you ready to leave a message now?"
          session := session }

/-! ## Hangup tool (`src/tools/telephony/hangup.py`)

Text predicates operate on `List Char`; Python `str` values correspond
to `String.toList`. -/

/-- One step of a whitespace tokenizer: accumulate the current word. -/
def wordStep (c : Char) (acc : List Char × List (List Char)) :
    List Char × List (List Char) :=
  if c.isWhitespace then
    ([], if acc.1 = [] then acc.2 else acc.1 :: acc.2)
  else (c :: acc.1, acc.2)

/-- Python `text.split()`: whitespace-separated words, empties dropped. -/
def splitWords (l : List Char) : List (List Char) :=
  let r := l.foldr wordStep ([], [])
  if r.1 = [] then r.2 else r.1 :: r.2

/-- Embedding of `_norm` (`hangup.py` lines 47-48): lower-case, collapse whitespace
to single spaces, strip the ends. -/
def normText (l : List Char) : List Char :=
  List.intercalate [' '] (splitWords (l.map Char.toLower))

/-- Whether `pat` occurs at the start of `l` (char-exact). -/
def startsWithChars : List Char → List Char → Bool
  | [], _ => true
  | _ :: _, [] => false
  | p :: ps, c :: cs => p == c && startsWithChars ps cs

/-- Python `pat in text` for strings: contiguous substring test. -/
def hasSub (pat : List Char) : List Char → Bool
  | [] => pat.isEmpty
  | c :: rest => startsWithChars pat (c :: rest) || hasSub pat rest

/-- The `_AFFIRMATIVE_MARKERS` tuple (`hangup.py` lines 15-27). -/
def affirmativeMarkers : List String :=
  ["yes", "yeah", "yep", "correct", "that's correct", "thats correct",
   "that's right", "thats right", "right", "exactly", "affirmative"]

/-- The `_END_CALL_MARKERS` tuple (`hangup.py` lines 29-44). -/
def endCallMarkers : List String :=
  ["bye", "goodbye", "hang up", "hangup", "end the call", "end call",
   "that's all", "thats all", "nothing else", "no thanks", "no thank you",
   "i'm done", "im done", "all set"]

/-- Embedding of `_is_affirmative` (lines 63-67). -/
def isAffirmative (text : List Char) : Bool :=
  let t := normText text
  if t = [] then false else affirmativeMarkers.any (fun m => hasSub m.toList t)

/-- Embedding of `_is_end_call_intent` (lines 70-74). -/
def isEndCallIntent (text : List Char) : Bool :=
  let t := normText text
  if t = [] then false else endCallMarkers.any (fun m => hasSub m.toList t)

/-- Lower-case ASCII letter. -/
def isLowerAz (c : Char) : Bool := 'a' ≤ c && c ≤ 'z'

/-- Character class `[a-z0-9.-]` of the emailish regex. -/
def isEmailClassChar (c : Char) : Bool :=
  isLowerAz c || c.isDigit || c == '.' || c == '-'

/-- Match of the source regex `@[a-z0-9.-]+\\.[a-z]{2,}` at the head of
the list.  In the source this pattern lives in a *raw* string, so `\\.`
is an escaped backslash followed by `.`: it requires a literal
backslash character after the domain run, then any non-newline
character, then two letters. -/
def matchEmailCoreAt : List Char → Bool
  | '@' :: rest =>
    let run := rest.takeWhile isEmailClassChar
    if run = [] then false
    else
      match rest.drop run.length with
      | '\\' :: d :: a :: b :: _ => d ≠ '\n' && isLowerAz a && isLowerAz b
      | _ => false
  | _ => false

/-- Model of `re.search` of the `@…` emailish pattern: try every position. -/
def searchEmailCore : List Char → Bool
  | [] => false
  | c :: rest => matchEmailCoreAt (c :: rest) || searchEmailCore rest

/-- The `(com|net|org|io|co)\\b` tail of the spoken-email regex:
one of the alternatives followed by a literal backslash and `b`. -/
def matchTldTail (l : List Char) : Bool :=
  ["com", "net", "org", "io", "co"].any fun w =>
    startsWithChars w.toList l &&
      startsWithChars ['\\', 'b'] (l.drop w.toList.length)

/-- Match of the raw-string regex `\\b[a-z]{2,}\\.(com|net|org|io|co)\\b`
at the head of the list: literal backslash, `b`, two or more letters,
literal backslash, any non-newline character, a TLD alternative,
literal backslash, `b`. -/
def matchSpokenAt : List Char → Bool
  | '\\' :: 'b' :: rest =>
    let run := rest.takeWhile isLowerAz
    if run.length < 2 then false
    else
      match rest.drop run.length with
      | '\\' :: d :: tail => d ≠ '\n' && matchTldTail tail
      | _ => false
  | _ => false

/-- Model of `re.search` of the spoken-email pattern. -/
def searchSpoken : List Char → Bool
  | [] => false
  | c :: rest => matchSpokenAt (c :: rest) || searchSpoken rest

/-- Embedding of `_looks_like_emailish` (`hangup.py` lines 51-60). -/
def looksLikeEmailish (text : List Char) : Bool :=
  let t := normText text
  if t = [] then false
  else if hasSub ['@'] t then searchEmailCore t
  else if hasSub " at ".toList (' ' :: t ++ [' ']) then
    hasSub " dot ".toList (' ' :: t ++ [' ']) || searchSpoken t
  else false

/-- Embedding of `_assistant_is_confirming_contact` (lines 77-87). -/
def assistantIsConfirmingContact (text : List Char) : Bool :=
  let t := normText text
  if t = [] then false
  else if hasSub "is that correct".toList t || hasSub "is that right".toList t ||
          hasSub "did i get that".toList t then true
  else if hasSub "email".toList t && t.getLast? == some '?' then true
  else if hasSub "email address".toList t &&
          (hasSub "confirm".toList t || hasSub "correct".toList t) then true
  else false

/-- A conversation-history entry (`{role, content}`). -/
structure ChatMsg where
  role : String
  content : String
  deriving Repr, DecidableEq

/-- Embedding of `next((m for m in reversed(history) if m["role"] == role and
str(m["content"] or "").strip()), None)` — the content of the most
recent message of `role` with non-whitespace content, else `""`
(`hangup.py` lines 172-181). -/
def lastContent (role : String) (hist : List ChatMsg) : String :=
  ((hist.reverse.find? fun m =>
      m.role = role && m.content.toList.any (fun c => ¬ c.isWhitespace)).map
    (·.content)).getD ""

/-- Embedding of `" ".join(str(m["content"] or "") for m in history[-10:] if
m["role"] in ("user","assistant")).lower()` (lines 193-197). -/
def recentText (hist : List ChatMsg) : List Char :=
  let lastTen := hist.drop (hist.length - 10)
  let parts := (lastTen.filter fun m => m.role = "user" ∨ m.role = "assistant").map
    (·.content.toList)
  (List.intercalate [' '] parts).map Char.toLower

/-- Result of `HangupCallTool.execute`: the returned dict fields
(`ai_should_speak` is present only on the blocked paths) together with
whether `update_session(cleanup_after_tts=True)` was invoked. -/
structure HangupResult where
  status : String
  message : String
  willHangup : Bool
  aiShouldSpeak : Option Bool
  sessionMarkedCleanup : Bool
  deriving Repr, DecidableEq

/-- The transcript-guardrail blocked result (`hangup.py` lines 204-209). -/
def hangupBlockedTranscript : HangupResult :=
  { status := "blocked"
    message := "Before we hang up, would you like me to email you a transcript of our conversation?"
    willHangup := false
    aiShouldSpeak := some true
    sessionMarkedCleanup := false }

/-- The pending-contact-confirmation blocked result (lines 224-232). -/
def hangupBlockedContact : HangupResult :=
  { status := "blocked"
    message := "Before we hang up, I just need to confirm the email address for the transcript. Could you please confirm if that's correct?"
    willHangup := false
    aiShouldSpeak := some true
    sessionMarkedCleanup := false }

/-- The success result (lines 240-254): the session is marked
`cleanup_after_tts` before returning. -/
def hangupSuccess (farewell : String) : HangupResult :=
  { status := "success"
    message := farewell
    willHangup := true
    aiShouldSpeak := none
    sessionMarkedCleanup := true }

/-- The pending-contact-confirmation condition (lines 211-216). -/
def pendingContactConfirmation (lastUserText lastAssistantText : String) : Bool :=
  looksLikeEmailish lastUserText.toList &&
    !(isAffirmative lastUserText.toList) &&
    assistantIsConfirmingContact lastAssistantText.toList &&
    !(isEndCallIntent lastUserText.toList)

/-- Embedding of `HangupCallTool.execute` (`hangup.py` lines 133-254) as a function
of the guardrail inputs.  `transcriptEnabled` is
`tools.request_transcript.enabled`; `farewellParam` is the
`farewell_message` parameter (`None` or empty falls back to
`configFarewell`).  The exception fallbacks of the source are not
reachable in this pure model. -/
def hangupExecute (transcriptEnabled : Bool) (hist : List ChatMsg)
    (farewellParam : Option String) (configFarewell : String) : HangupResult :=
  let farewell := match farewellParam with
    | some f => if f = "" then configFarewell else f
    | none => configFarewell
  if hist = [] then hangupSuccess farewell
  else
    let lastUserText := lastContent "user" hist
    let lastAssistantText := lastContent "assistant" hist
    if transcriptEnabled ∧ isEndCallIntent lastUserText.toList ∧
        ¬ hasSub "transcript".toList (recentText hist) then
      hangupBlockedTranscript
    else if pendingContactConfirmation lastUserText lastAssistantText then
      hangupBlockedContact
    else hangupSuccess farewell

/-! ## Theorems -/

/-- C1: the specification states that `send_audio(call_id, chunk)` with
a non-empty chunk returns true on a successful socket write.  In the
source, line 244's `return False` executes unconditionally (the RTP
header build and socket send at lines 253-293 are unreachable), so the
call returns false even for a session whose remote endpoint is known
and whose socket write would succeed. -/
theorem sendAudio_returns_false_despite_known_endpoint :
    (sendAudio 0
      (some { RTPSession.fresh with
                remoteHost := some "10.0.0.5"
                remotePort := some 4000
                ssrc := some 0x11223344 })
      [0x7F]).1 = false := by
  decide

/-- C2 counterexample: with the default configured
`provider_grace_ms = 500`, the `_cleanup_stream` tail wait is the full
500 ms, not capped at 60 ms as the claim states. -/
theorem cleanupGraceWait_not_capped_at_60 :
    cleanupGraceWaitMs 500 = 500 ∧ ¬ cleanupGraceWaitMs 500 ≤ 60 := by
  decide

/-- C2 amended: the cleanup path waits the full configured
`provider_grace_ms` (uncapped); the 60 ms cap applies only to the
pacer's low-watermark rebuild wait in `_process_jitter_buffer`. -/
theorem cleanupGraceWait_full_rebuild_capped (g : Nat) :
    cleanupGraceWaitMs g = g ∧ rebuildMaxWaitMs g ≤ 60 := by
  constructor
  · unfold cleanupGraceWaitMs
    split <;> omega
  · exact Nat.min_le_left 60 g

/-- C3 counterexample: `start_streaming_playback` also returns null
when the call session is not found (lines 312-316), with the gating
acquisition never attempted — here gating would have succeeded. -/
theorem startStreaming_none_without_gating_contention :
    startStreamingResult false "stream:response:c1:100" false true
      "stream:response:c1:200" = none := by
  decide

/-- C3 amended: `start_streaming_playback` returns null exactly when no
stream is already active and either the call session is missing or
gating-token acquisition fails; otherwise it returns a stream id. -/
theorem startStreamingResult_none_iff (active found gating : Bool)
    (existingId newId : String) :
    startStreamingResult active existingId found gating newId = none ↔
      active = false ∧ (found = false ∨ gating = false) := by
  cases active <;> cases found <;> cases gating <;>
    simp [startStreamingResult]

/-- C6 counterexample: with `jitter_buffer_ms = 20` and
`chunk_size_ms = 20` (so `jb_chunks = 1`), the floor of one chunk wins
over the clamp and the effective `min_start_chunks = 1` exceeds
`jitter_buffer_chunks − 1 = 0`. -/
theorem minStartChunks_exceeds_capacity_minus_one :
    let w := computeWarmup
      { sampleRate := 8000, jitterBufferMs := 20, chunkSizeMs := 20,
        minStartMs := 120, lowWatermarkMs := 80, providerGraceMs := 500,
        greetingMinStartMs := 0, egressSwapMode := "auto" }
      999999 false false false
    ¬ w.minStartChunks ≤ w.jbChunks - 1 := by
  decide

/-- C6 amended: the effective `min_start_chunks` never exceeds
`max 1 (jitter_buffer_chunks − 1)`; in particular, whenever the jitter
buffer holds at least two chunks it never exceeds
`jitter_buffer_chunks − 1`. -/
theorem minStartChunks_le_max_one_capacity (c : StreamingCfg)
    (gapMs : Nat) (greeting vadSwap audiosocketPcm16 : Bool) :
    (computeWarmup c gapMs greeting vadSwap audiosocketPcm16).minStartChunks ≤
      max 1 ((computeWarmup c gapMs greeting vadSwap audiosocketPcm16).jbChunks - 1) := by
  unfold computeWarmup
  dsimp only
  omega

/-- C9: `_greeting_injections` never exceeds 2 in any execution: each
injection site increments the counter only under its guard
(`< 1` for the immediate site, `< 2` for the silence-fallback and
post-ACK sites), so any sequence of attempted injections starting from
the initial counter 0 ends at a count of at most 2. -/
theorem greetRun_le_two (attempts : List (GreetSite × Bool)) :
    greetRun attempts ≤ 2 := by
  have step_le : ∀ (n : Nat) (a : GreetSite × Bool), n ≤ 2 → greetStep n a ≤ 2 := by
    intro n a hn
    obtain ⟨site, condsOk⟩ := a
    cases site <;> simp only [greetStep] <;> split <;> omega
  have run_le : ∀ (l : List (GreetSite × Bool)) (n : Nat), n ≤ 2 →
      l.foldl greetStep n ≤ 2 := by
    intro l
    induction l with
    | nil => intro n hn; simpa using hn
    | cons a l ih =>
      intro n hn
      simpa using ih (greetStep n a) (step_le n a hn)
  exact run_le attempts 0 (by omega)

/-- C10: when the ARI `continue` command fails, `VoicemailTool.execute`
rolls back the session (`transfer_active := false`,
`transfer_target := None`) and returns status "failed"; the
`transfer_active = true` flag set before the grace sleep persists
exactly when the command succeeds. -/
theorem voicemailExecute_rollback_on_ari_failure (s : VmSession)
    (ext : String) (h : ext ≠ "") :
    voicemailExecute s true (some ext) true =
      { status := "failed"
        message := "Unable to transfer to voicemail at this time"
        session := { transferActive := false, transferTarget := none } } ∧
    (voicemailExecute s true (some ext) false).session.transferActive = true := by
  unfold voicemailExecute
  simp [h]

/-- C10 witness: rollback at the concrete session and extension. -/
theorem voicemailExecute_rollback_witness :
    voicemailExecute ⟨false, none⟩ true (some "1000") true =
      { status := "failed"
        message := "Unable to transfer to voicemail at this time"
        session := { transferActive := false, transferTarget := none } } ∧
    (voicemailExecute ⟨false, none⟩ true (some "1000") false).session.transferActive = true :=
  voicemailExecute_rollback_on_ari_failure ⟨false, none⟩ "1000" (by decide)

/-- C4: an inbound RTP v2 packet whose SSRC equals the session's
established outbound SSRC is dropped before the engine/provider
hand-off, with `echo_packets_filtered` incremented by exactly one and
the session otherwise unchanged. -/
theorem echoPacket_dropped_and_counted (cfg : RTPServerCfg) (s : RTPSession)
    (data : List Nat) (host : String) (port : Nat) (o : Nat)
    (hout : s.outboundSsrc = some o)
    (hlen : 12 ≤ data.length)
    (hver : data.getD 0 0 / 64 = 2)
    (hssrc : beBytes data 8 4 = o) :
    rtpReceivePacket cfg s data host port =
      (.dropEcho, { s with echoPacketsFiltered := s.echoPacketsFiltered + 1 },
       none) := by
  unfold rtpReceivePacket
  rw [if_neg (by omega)]
  simp only [hver, hssrc, hout, Option.iget_some, Option.isSome_some]
  simp

/-- C4 witness: a concrete 12-byte RTP v2 packet carrying the session's
outbound SSRC `0xDEADBEEF` is dropped as echo. -/
theorem echoPacket_dropped_witness :
    (12 ≤ ([0x80, 0, 0, 1, 0, 0, 0, 2, 0xDE, 0xAD, 0xBE, 0xEF] : List Nat).length) ∧
    beBytes [0x80, 0, 0, 1, 0, 0, 0, 2, 0xDE, 0xAD, 0xBE, 0xEF] 8 4 = 0xDEADBEEF ∧
    rtpReceivePacket ⟨true, none⟩
      { RTPSession.fresh with outboundSsrc := some 0xDEADBEEF }
      [0x80, 0, 0, 1, 0, 0, 0, 2, 0xDE, 0xAD, 0xBE, 0xEF] "192.168.1.10" 12000 =
      (.dropEcho,
       { RTPSession.fresh with outboundSsrc := some 0xDEADBEEF,
                               echoPacketsFiltered := 1 },
       none) :=
  ⟨by decide, by decide,
   echoPacket_dropped_and_counted ⟨true, none⟩ _ _ _ _ 0xDEADBEEF rfl
     (by decide) (by decide) (by decide)⟩

/-- C5 counterexample: on the AudioSocket path a 640-byte PCM16@16k
chunk converted to 160 bytes of µ-law@8k (frame size 160) leaves
`buffered_bytes = 480` while the jitter queue and remainder are empty,
so the counter does not equal the bytes actually buffered. -/
theorem bufferedBytes_diverges_on_conversion :
    bufRun 160 ⟨[], 0, 0⟩ [.enqueue 640, .consumeAS 160] =
      ⟨[], 0, 480⟩ ∧
    ¬ bufInv (bufRun 160 ⟨[], 0, 0⟩ [.enqueue 640, .consumeAS 160]) := by
  constructor
  · decide
  · intro h
    have := h
    rw [show bufRun 160 ⟨[], 0, 0⟩ [.enqueue 640, .consumeAS 160] =
          ⟨[], 0, 480⟩ from by decide] at this
    simp [bufInv] at this

/-- Helper: `decBufferedTimes` subtracts `k·f` exactly when no clamping occurs. -/
theorem decBufferedTimes_sub (f : Nat) :
    ∀ (k : Nat) (v : Int), ((k * f : Nat) : Int) ≤ v →
      decBufferedTimes v f k = v - ((k * f : Nat) : Int) := by
  intro k
  induction k with
  | zero => intro v _; simp [decBufferedTimes]
  | succ k ih =>
    intro v h
    by_cases hf : f = 0
    · subst hf
      have hz : ∀ (m : Nat) (w : Int), decBufferedTimes w 0 m = w := by
        intro m
        induction m with
        | zero => intro w; simp [decBufferedTimes]
        | succ m ihm => intro w; simp [decBufferedTimes, decBuffered, ihm]
      simp [hz]
    · have hfv : ((f : Nat) : Int) ≤ v := by
        have : f ≤ (k + 1) * f := by nlinarith [Nat.le_of_lt (Nat.pos_of_ne_zero hf)]
        have : ((f : Nat) : Int) ≤ (((k + 1) * f : Nat) : Int) := by exact_mod_cast this
        omega
      have hd : decBuffered v f = v - (f : Int) := by
        unfold decBuffered
        rw [if_neg hf]
        have hk : (0 : Int) ≤ ((k * f : Nat) : Int) := by positivity
        have : ((k + 1) * f : Nat) = k * f + f := by ring
        rw [this] at h
        push_cast at h ⊢
        omega
      have hrec : ((k * f : Nat) : Int) ≤ v - (f : Int) := by
        have : ((k + 1) * f : Nat) = k * f + f := by ring
        rw [this] at h
        push_cast at h ⊢
        omega
    -- unfold one step and recurse
      show decBufferedTimes (decBuffered v f) f k = _
      rw [hd, ih (v - (f : Int)) hrec]
      have : ((k + 1) * f : Nat) = k * f + f := by ring
      rw [this]
      push_cast
      ring

/-- C5 amended: `buffered_bytes` is non-negative, and it exactly tracks
the bytes in the jitter queue plus the remainder across every
producer-enqueue and pacer-consume step whose per-chunk processing
preserves the chunk's byte length (as on the RTP pass-through path);
with a length-changing conversion the counter can diverge (see the
counterexample). -/
theorem bufInv_preserved_length_preserving (f : Nat) (s : BufState)
    (op : BufOp) (hinv : bufInv s) (hlp : lengthPreserving s op) :
    bufInv (bufStep f s op) ∧ 0 ≤ (bufStep f s op).buffered := by
  have nonneg_of_inv : ∀ t : BufState, bufInv t → 0 ≤ t.buffered := by
    intro t ht
    rw [ht]
    positivity
  have hI : s.buffered = (s.queue.sum : Int) + s.remainder := hinv
  cases op with
  | enqueue n =>
    have hinv2 : bufInv (bufStep f s (.enqueue n)) := by
      show s.buffered + (n : Int) = (((s.queue ++ [n]).sum : Nat) : Int) + s.remainder
      have hs : (s.queue ++ [n]).sum = s.queue.sum + n := by simp
      rw [hs, Nat.cast_add]
      omega
    exact ⟨hinv2, nonneg_of_inv _ hinv2⟩
  | consumeRTP =>
    cases hq : s.queue with
    | nil =>
      refine ⟨?_, ?_⟩ <;> simp only [bufStep, hq]
      · exact hinv
      · exact nonneg_of_inv s hinv
    | cons n rest =>
      have hb : s.buffered = ((n : Int) + rest.sum) + s.remainder := by
        rw [hq, List.sum_cons, Nat.cast_add] at hI
        omega
      have hinv2 : bufInv (bufStep f s .consumeRTP) := by
        simp only [bufStep, hq]
        show decBuffered s.buffered n = ((rest.sum : Nat) : Int) + s.remainder
        unfold decBuffered
        have h1 : (0 : Int) ≤ (rest.sum : Int) := by positivity
        have h2 : (0 : Int) ≤ (s.remainder : Int) := by positivity
        split
        · omega
        · rw [max_eq_right (by omega : (0 : Int) ≤ s.buffered - n)]
          omega
      exact ⟨hinv2, nonneg_of_inv _ hinv2⟩
  | consumeAS procLen =>
    cases hq : s.queue with
    | nil =>
      refine ⟨?_, ?_⟩ <;> simp only [bufStep, hq]
      · exact hinv
      · exact nonneg_of_inv s hinv
    | cons n rest =>
      have hpl : procLen = n := by
        have := hlp
        rw [lengthPreserving, hq] at this
        exact this
      have hb : s.buffered = ((n : Int) + rest.sum) + s.remainder := by
        rw [hq, List.sum_cons, Nat.cast_add] at hI
        omega
      have hrs : (0 : Int) ≤ (rest.sum : Int) := by positivity
      subst hpl
      set pending := s.remainder + procLen with hpend
      have hmle : pending / f * f ≤ pending := Nat.div_mul_le_self pending f
      have hpc : ((pending : Nat) : Int) = (s.remainder : Int) + (procLen : Int) := by
        rw [hpend, Nat.cast_add]
      have hcast : ((pending / f * f : Nat) : Int) ≤ s.buffered := by
        have h1 : ((pending / f * f : Nat) : Int) ≤ (pending : Int) := by
          exact_mod_cast hmle
        omega
      have hdec : decBufferedTimes s.buffered f (pending / f) =
          s.buffered - ((pending / f * f : Nat) : Int) :=
        decBufferedTimes_sub f (pending / f) s.buffered hcast
      have hmod : pending % f + f * (pending / f) = pending := Nat.mod_add_div pending f
      have hmodc : ((pending % f : Nat) : Int) + ((f * (pending / f) : Nat) : Int) =
          (pending : Int) := by
        rw [← Nat.cast_add]
        exact congrArg (Nat.cast : Nat → Int) hmod
      have hc : ((pending / f * f : Nat) : Int) = ((f * (pending / f) : Nat) : Int) := by
        rw [Nat.mul_comm]
      have hinv2 : bufInv (bufStep f s (.consumeAS procLen)) := by
        simp only [bufStep, hq, ← hpend]
        show decBufferedTimes s.buffered f (pending / f) =
          ((rest.sum : Nat) : Int) + ((pending % f : Nat) : Int)
        rw [hdec, hc]
        omega
      exact ⟨hinv2, nonneg_of_inv _ hinv2⟩

/-- C5 amended witness: a length-preserving AudioSocket consume of a
320-byte chunk (frame size 160) keeps the counter exact. -/
theorem bufInv_preserved_witness :
    bufInv (⟨[320], 0, 320⟩ : BufState) ∧
    lengthPreserving ⟨[320], 0, 320⟩ (.consumeAS 320) ∧
    bufInv (bufStep 160 ⟨[320], 0, 320⟩ (.consumeAS 320)) ∧
    0 ≤ (bufStep 160 ⟨[320], 0, 320⟩ (.consumeAS 320)).buffered :=
  ⟨by decide, by decide,
   (bufInv_preserved_length_preserving 160 ⟨[320], 0, 320⟩ (.consumeAS 320)
     (by decide) (by decide)).1,
   (bufInv_preserved_length_preserving 160 ⟨[320], 0, 320⟩ (.consumeAS 320)
     (by decide) (by decide)).2⟩

/-- Single-chunk helper for C7: with mode `force_false` and the swap
flag clear, `_apply_pcm_endianness` emits the chunk unchanged and
leaves the flag clear, whatever the chunk's RMS values. -/
theorem applyPcmEndianness_force_false_step (st : EgressState)
    (pcm : List Nat) (h : st.egressSwap = false) :
    (applyPcmEndianness st pcm "force_false").1 = pcm ∧
    (applyPcmEndianness st pcm "force_false").2.egressSwap = false := by
  unfold applyPcmEndianness
  by_cases hp : pcm = []
  · simp [hp, h]
  · rw [if_neg hp]
    by_cases hfmt : st.targetFormat = "slin16" ∨ st.targetFormat = "linear16" ∨
        st.targetFormat = "pcm16"
    · rw [if_neg (not_not_intro hfmt)]
      simp only [show ¬ (("force_false" : String) = "") by decide, if_false,
        show ¬ (("force_false" : String) = "force_true") by decide]
      by_cases hprobe : st.probeDone
      · rw [if_neg (by simp [hprobe])]
        simp [applyPcmEndianness.finishSwap, h]
      · rw [if_pos (by simp [hprobe])]
        simp only [if_pos (by simp [hprobe] : ¬ st.probeDone)]
        rw [if_neg (by simp)]
        simp [applyPcmEndianness.finishSwap, h]
    · rw [if_pos hfmt]
      exact ⟨rfl, h⟩

/-- C7: for a stream whose egress swap mode is `force_false` and whose
swap flag starts false (as `start_streaming_playback` initialises it),
processing any sequence of PCM16 chunks emits every chunk without
byte-swapping and the `egress_swap` flag remains false, regardless of
the RMS of the native and byte-swapped windows. -/
theorem egress_force_false_never_swaps (st : EgressState)
    (chunks : List (List Nat)) (h : st.egressSwap = false) :
    (applyPcmEndiannessRun st "force_false" chunks).1 = chunks ∧
    (applyPcmEndiannessRun st "force_false" chunks).2.egressSwap = false := by
  induction chunks generalizing st with
  | nil => exact ⟨rfl, h⟩
  | cons c cs ih =>
    have hstep := applyPcmEndianness_force_false_step st c h
    have hrest := ih (applyPcmEndianness st c "force_false").2 hstep.2
    simp only [applyPcmEndiannessRun]
    constructor
    · simp [hstep.1, hrest.1]
    · simpa using hrest.2

/-- C7 witness: two concrete loud-when-swapped PCM16 chunks pass
through unswapped under `force_false`. -/
theorem egress_force_false_witness :
    (⟨"slin16", false, false, false, false, 0⟩ : EgressState).egressSwap = false ∧
    (applyPcmEndiannessRun ⟨"slin16", false, false, false, false, 0⟩
        "force_false" [[0x01, 0x00, 0x02, 0x00], [0xFF, 0x00]]).1 =
      [[0x01, 0x00, 0x02, 0x00], [0xFF, 0x00]] ∧
    (applyPcmEndiannessRun ⟨"slin16", false, false, false, false, 0⟩
        "force_false" [[0x01, 0x00, 0x02, 0x00], [0xFF, 0x00]]).2.egressSwap = false :=
  ⟨rfl,
   (egress_force_false_never_swaps _ _ rfl).1,
   (egress_force_false_never_swaps _ _ rfl).2⟩

/-- C8: with transcript sending enabled, the word "transcript" absent
from the recent (last-10-message) history, and a last user turn that
expresses end-call intent, `HangupCallTool.execute` returns the
blocked result — status "blocked", `will_hangup = false`,
`ai_should_speak = true`, the transcript-offer message — and does not
mark the session `cleanup_after_tts`. -/
theorem hangup_transcript_guardrail (hist : List ChatMsg)
    (farewellParam : Option String) (configFarewell : String)
    (hne : hist ≠ [])
    (hintent : isEndCallIntent (lastContent "user" hist).toList = true)
    (hnot : hasSub "transcript".toList (recentText hist) = false) :
    hangupExecute true hist farewellParam configFarewell =
      hangupBlockedTranscript := by
  unfold hangupExecute
  rw [if_neg hne, if_pos ?_]
  refine ⟨rfl, hintent, ?_⟩
  simpa using hnot

/-- C8 witness: history `[user: "thanks, bye"]` with transcript enabled
yields the blocked transcript-offer result. -/
theorem hangup_transcript_guardrail_witness :
    isEndCallIntent (lastContent "user" [⟨"user", "thanks, bye"⟩]).toList = true ∧
    hasSub "transcript".toList (recentText [⟨"user", "thanks, bye"⟩]) = false ∧
    hangupExecute true [⟨"user", "thanks, bye"⟩] none "Goodbye!" =
      hangupBlockedTranscript :=
  ⟨by decide, by decide,
   hangup_transcript_guardrail [⟨"user", "thanks, bye"⟩] none "Goodbye!"
     (by simp) (by decide) (by decide)⟩

end VoiceAgent
